import Mathlib

/-!
Shallow embedding of the error-classification engine of the DeFi
transaction-failure diagnosis repository (src/agent.js): the pattern
catalog `ERROR_PATTERNS`, the classifier `detectErrorCategory`, and the
normalizer `buildTransactionContext`, together with theorems settling the
specification claims about them.

JavaScript values appearing in a transaction record are modelled by the
inductive `JSVal`: strings, integer numbers, booleans, null, undefined
(also standing for an absent property), arrays (with string elements, the
only element shape exercised here), and plain objects. Truthiness, the
`||` default operator, and the string conversion performed by
`Array.prototype.join` are modelled after the JavaScript semantics the
source relies on. The wall-clock read in the normalizer is made explicit
as a `now` argument, following the spec's injectable-clock design note.
-/

/-- A JavaScript value as it can appear in a transaction-failure record.
`vUndefined` also models an absent property. Array elements are restricted
to strings, the only case the development needs. -/
inductive JSVal where
  | vStr : String → JSVal
  | vNum : Int → JSVal
  | vBool : Bool → JSVal
  | vNull : JSVal
  | vUndefined : JSVal
  | vArr : List String → JSVal
  | vObj : List (String × JSVal) → JSVal

/-- JavaScript truthiness: undefined, null, false, 0 and the empty string
are falsy; every other modelled value (any array or object included) is
truthy. -/
def truthy : JSVal → Bool
  | .vStr s => s != ""
  | .vNum n => n != 0
  | .vBool b => b
  | .vNull => false
  | .vUndefined => false
  | .vArr _ => true
  | .vObj _ => true

/-- The JavaScript `a || b` defaulting idiom: `a` when truthy, else `b`. -/
def jsOr (a b : JSVal) : JSVal :=
  if truthy a then a else b

/-- `String(v)` conversion as used by `Array.prototype.join`: an array is
its elements joined by commas, a plain object prints as
`[object Object]`. -/
def jsToString : JSVal → String
  | .vStr s => s
  | .vNum n => toString n
  | .vBool b => if b then "true" else "false"
  | .vNull => "null"
  | .vUndefined => "undefined"
  | .vArr ss => String.intercalate "," ss
  | .vObj _ => "[object Object]"

/-- How `Array.prototype.join` renders one element: null and undefined
become the empty string, every other value goes through `String(v)`. -/
def joinElem : JSVal → String
  | .vNull => ""
  | .vUndefined => ""
  | v => jsToString v

/-- ASCII lowering of one character, as `String.prototype.toLowerCase`
acts on the ASCII strings in play. -/
def lowerChar (c : Char) : Char :=
  if 65 ≤ c.toNat && c.toNat ≤ 90 then Char.ofNat (c.toNat + 32) else c

/-- ASCII lowering of a string. -/
def lowerStr (s : String) : String :=
  ⟨s.data.map lowerChar⟩

/-- `pat` occurs at the start of `s` (character lists). -/
def charsStart : List Char → List Char → Bool
  | [], _ => true
  | _ :: _, [] => false
  | a :: as, b :: bs => a == b && charsStart as bs

/-- `pat` occurs somewhere in `s` (character lists). -/
def charsAnywhere (pat : List Char) : List Char → Bool
  | [] => pat.isEmpty
  | c :: cs => charsStart pat (c :: cs) || charsAnywhere pat cs

/-- `String.prototype.includes`: `pat` is a contiguous substring of `s`. -/
def strContains (s pat : String) : Bool :=
  charsAnywhere pat.data s.data

/-- One entry of the pattern catalog `ERROR_PATTERNS` in src/agent.js:
a stable key, the matching substrings, and a human-readable category. -/
structure PatternEntry where
  key : String
  patterns : List String
  category : String

/-- The ten-entry pattern catalog `ERROR_PATTERNS` of src/agent.js, in its
definition order, which is the order `Object.entries` iterates. -/
def ERROR_PATTERNS : List PatternEntry :=
  [ ⟨"OUT_OF_GAS",
      ["out of gas", "gas required exceeds allowance", "intrinsic gas too low"],
      "Gas Error"⟩,
    ⟨"REVERT_NO_REASON",
      ["execution reverted", "transaction reverted"],
      "Execution Revert"⟩,
    ⟨"SLIPPAGE",
      ["insufficient output amount", "excessive input amount", "UniswapV2: K", "slippage"],
      "Slippage Error"⟩,
    ⟨"ALLOWANCE",
      ["allowance", "transfer amount exceeds allowance", "erc20: insufficient allowance"],
      "Allowance Error"⟩,
    ⟨"BALANCE",
      ["insufficient balance", "transfer amount exceeds balance", "erc20: transfer amount exceeds balance"],
      "Balance Error"⟩,
    ⟨"DEADLINE",
      ["transaction too old", "expired", "deadline"],
      "Deadline Error"⟩,
    ⟨"REENTRANCY",
      ["reentrant call", "reentrancy guard"],
      "Reentrancy Guard"⟩,
    ⟨"OWNERSHIP",
      ["ownable: caller is not the owner", "not authorized", "access denied", "onlyowner"],
      "Access Control Error"⟩,
    ⟨"PAUSED",
      ["paused", "contract is paused", "pausable: paused"],
      "Contract Paused"⟩,
    ⟨"NONCE",
      ["nonce too low", "nonce too high", "replacement transaction underpriced"],
      "Nonce Error"⟩ ]

/-- A transaction-failure record (`txData` in src/agent.js): every
property the engine reads, each possibly absent (`vUndefined`). The JS
`from` and `to` properties are named `fromAddr` and `toAddr` (`from` and
`to` are reserved in Lean). -/
structure TxData where
  hash : JSVal := .vUndefined
  status : JSVal := .vUndefined
  gasUsed : JSVal := .vUndefined
  gasLimit : JSVal := .vUndefined
  gasPrice : JSVal := .vUndefined
  fromAddr : JSVal := .vUndefined
  toAddr : JSVal := .vUndefined
  value : JSVal := .vUndefined
  nonce : JSVal := .vUndefined
  error : JSVal := .vUndefined
  revertReason : JSVal := .vUndefined
  errorMessage : JSVal := .vUndefined
  contractAddress : JSVal := .vUndefined
  contractName : JSVal := .vUndefined
  functionName : JSVal := .vUndefined
  inputData : JSVal := .vUndefined
  network : JSVal := .vUndefined
  timestamp : JSVal := .vUndefined
  additionalContext : JSVal := .vUndefined

/-- The search string of `detectErrorCategory`:
`[error || "", revertReason || "", errorMessage || ""].join(" ").toLowerCase()`. -/
def searchStr (t : TxData) : String :=
  lowerStr (joinElem (jsOr t.error (.vStr ""))
    ++ " " ++ joinElem (jsOr t.revertReason (.vStr ""))
    ++ " " ++ joinElem (jsOr t.errorMessage (.vStr "")))

/-- Whether a catalog entry matches a (lowered) search string: some
pattern of the entry, lowered, occurs somewhere in it. -/
def entryMatches (s : String) (e : PatternEntry) : Bool :=
  e.patterns.any fun p => strContains s (lowerStr p)

/-- The classifier's result: `{key, category, patterns}`. -/
structure ClassificationResult where
  key : String
  category : String
  patterns : List String
deriving DecidableEq

/-- `detectErrorCategory` of src/agent.js: first catalog entry whose
patterns hit the search string, else the UNKNOWN sentinel. -/
def detectErrorCategory (t : TxData) : ClassificationResult :=
  match ERROR_PATTERNS.find? (entryMatches (searchStr t)) with
  | some e => ⟨e.key, e.category, e.patterns⟩
  | none => ⟨"UNKNOWN", "Unknown Error", []⟩

/-- The normalized context (`buildTransactionContext`'s result): every
canonical field resolved to a value, plus the embedded classification.
The JS object has no `errorMessage` property. -/
structure NormalizedContext where
  hash : JSVal
  status : JSVal
  errorCategory : ClassificationResult
  gasUsed : JSVal
  gasLimit : JSVal
  gasPrice : JSVal
  fromAddr : JSVal
  toAddr : JSVal
  value : JSVal
  nonce : JSVal
  error : JSVal
  revertReason : JSVal
  contractAddress : JSVal
  contractName : JSVal
  functionName : JSVal
  inputData : JSVal
  network : JSVal
  timestamp : JSVal
  additionalContext : JSVal

/-- `buildTransactionContext` of src/agent.js. The wall-clock read
`new Date().toISOString()` is passed in as `now` (injectable clock). -/
def buildTransactionContext (now : String) (t : TxData) : NormalizedContext :=
  { hash := jsOr t.hash (.vStr "N/A")
    status := jsOr t.status (.vStr "failed")
    errorCategory := detectErrorCategory t
    gasUsed := jsOr t.gasUsed (.vStr "N/A")
    gasLimit := jsOr t.gasLimit (.vStr "N/A")
    gasPrice := jsOr t.gasPrice (.vStr "N/A")
    fromAddr := jsOr t.fromAddr (.vStr "N/A")
    toAddr := jsOr t.toAddr (.vStr "N/A")
    value := jsOr t.value (.vStr "0")
    nonce := jsOr t.nonce (.vStr "N/A")
    error := jsOr t.error (.vStr "No error message")
    revertReason := jsOr t.revertReason (.vStr "No revert reason")
    contractAddress := jsOr t.contractAddress (jsOr t.toAddr (.vStr "N/A"))
    contractName := jsOr t.contractName (.vStr "Unknown Contract")
    functionName := jsOr t.functionName (.vStr "Unknown Function")
    inputData := jsOr t.inputData (.vStr "N/A")
    network := jsOr t.network (.vStr "Ethereum Mainnet")
    timestamp := jsOr t.timestamp (.vStr now)
    additionalContext := jsOr t.additionalContext (.vObj []) }

/-- Reading a normalized context back as a raw record, as JavaScript
property access does on the object `buildTransactionContext` returns: the
canonical fields are present, and `errorMessage`, which the normalized
object does not carry, reads as undefined. -/
def ctxToTxData (c : NormalizedContext) : TxData :=
  { hash := c.hash
    status := c.status
    gasUsed := c.gasUsed
    gasLimit := c.gasLimit
    gasPrice := c.gasPrice
    fromAddr := c.fromAddr
    toAddr := c.toAddr
    value := c.value
    nonce := c.nonce
    error := c.error
    revertReason := c.revertReason
    errorMessage := .vUndefined
    contractAddress := c.contractAddress
    contractName := c.contractName
    functionName := c.functionName
    inputData := c.inputData
    network := c.network
    timestamp := c.timestamp
    additionalContext := c.additionalContext }

/-- A value that is present: anything but undefined. -/
def isDefined : JSVal → Bool
  | .vUndefined => false
  | .vNull => false
  | _ => true

-- Basic facts about truthiness and the `||` default operator.

theorem truthy_isDefined {v : JSVal} (h : truthy v = true) : isDefined v = true := by
  cases v <;> simp_all [truthy, isDefined]

theorem jsOr_of_truthy {a : JSVal} (b : JSVal) (h : truthy a = true) : jsOr a b = a := by
  simp [jsOr, h]

theorem jsOr_of_falsy {a : JSVal} (b : JSVal) (h : truthy a = false) : jsOr a b = b := by
  simp [jsOr, h]

theorem truthy_jsOr (a : JSVal) {b : JSVal} (h : truthy b = true) :
    truthy (jsOr a b) = true := by
  unfold jsOr
  by_cases ha : truthy a = true
  · simp [ha]
  · simp at ha
    simpa [ha]

theorem isDefined_jsOr (a : JSVal) {b : JSVal} (h : isDefined b = true) :
    isDefined (jsOr a b) = true := by
  unfold jsOr
  by_cases ha : truthy a = true
  · simp only [ha, if_true]
    exact truthy_isDefined ha
  · simp at ha
    simpa [ha]

/-- A truthy value absorbs a further defaulting pass: `(a || d) || e`
equals `a || d` whenever the default `d` is itself truthy. -/
theorem jsOr_absorb (a : JSVal) {d : JSVal} (e : JSVal) (hd : truthy d = true) :
    jsOr (jsOr a d) e = jsOr a d :=
  jsOr_of_truthy e (truthy_jsOr a hd)

/-- `List.find?` returns the element at the first index satisfying the
predicate. -/
theorem find?_eq_of_first {α : Type} (p : α → Bool) :
    ∀ (l : List α) (i : Nat) (e : α), l[i]? = some e → p e = true →
      (∀ j, j < i → ∀ x, l[j]? = some x → p x = false) →
      l.find? p = some e := by
  intro l
  induction l with
  | nil => intro i e h _ _; simp at h
  | cons a t ih =>
    intro i e hget hp hprev
    cases i with
    | zero =>
      simp at hget
      subst hget
      simp [List.find?_cons_of_pos, hp]
    | succ n =>
      have ha : p a = false := hprev 0 (Nat.succ_pos n) a (by simp)
      simp at hget
      rw [List.find?_cons_of_neg _ (by simp [ha])]
      exact ih n e hget hp fun j hj x hx =>
        hprev (j + 1) (Nat.succ_lt_succ hj) x (by simpa using hx)

/-- Claim C1: for every input record whose search string (error,
revert-reason and error-message fields, defaulted to empty, joined and
lower-cased) contains at least one catalog substring, `detectErrorCategory`
returns the `{key, category, patterns}` of the first entry in the
ten-entry catalog order OUT_OF_GAS, REVERT_NO_REASON, SLIPPAGE, ALLOWANCE,
BALANCE, DEADLINE, REENTRANCY, OWNERSHIP, PAUSED, NONCE for which some
substring of that entry occurs in the search string. The matching entry is
the one at the first matching index `i`. -/
theorem classify_first_match (t : TxData) (i : Nat) (e : PatternEntry)
    (hget : ERROR_PATTERNS[i]? = some e)
    (hmatch : entryMatches (searchStr t) e = true)
    (hfirst : ∀ j, j < i → ∀ x, ERROR_PATTERNS[j]? = some x →
      entryMatches (searchStr t) x = false) :
    ERROR_PATTERNS.map PatternEntry.key =
      ["OUT_OF_GAS", "REVERT_NO_REASON", "SLIPPAGE", "ALLOWANCE", "BALANCE",
        "DEADLINE", "REENTRANCY", "OWNERSHIP", "PAUSED", "NONCE"] ∧
    detectErrorCategory t = ⟨e.key, e.category, e.patterns⟩ := by
  refine ⟨rfl, ?_⟩
  unfold detectErrorCategory
  rw [find?_eq_of_first _ ERROR_PATTERNS i e hget hmatch hfirst]

/-- Witness for C1: `{error: "out of gas"}` matches the catalog entry at
index 0 and is classified OUT_OF_GAS. -/
theorem classify_first_match_witness :
    detectErrorCategory { error := JSVal.vStr "out of gas" } =
      ⟨"OUT_OF_GAS", "Gas Error",
        ["out of gas", "gas required exceeds allowance", "intrinsic gas too low"]⟩ :=
  (classify_first_match { error := JSVal.vStr "out of gas" } 0
    ⟨"OUT_OF_GAS",
      ["out of gas", "gas required exceeds allowance", "intrinsic gas too low"],
      "Gas Error"⟩
    rfl (by decide) (fun j hj _ _ => absurd hj (Nat.not_lt_zero j))).2

/-- Claim C2: for every input record whose search string contains no
substring of any catalog entry, `detectErrorCategory` returns exactly the
sentinel `{key: "UNKNOWN", category: "Unknown Error", patterns: []}`. -/
theorem classify_no_match (t : TxData)
    (h : ∀ e ∈ ERROR_PATTERNS, entryMatches (searchStr t) e = false) :
    detectErrorCategory t = ⟨"UNKNOWN", "Unknown Error", []⟩ := by
  unfold detectErrorCategory
  rw [List.find?_eq_none.mpr fun x hx => by simp [h x hx]]

/-- Witness for C2: a revert reason matching no catalog substring
classifies as the UNKNOWN sentinel. -/
theorem classify_no_match_witness :
    detectErrorCategory { revertReason := JSVal.vStr "VL_COLLATERAL_CANNOT_COVER_NEW_BORROW" } =
      ⟨"UNKNOWN", "Unknown Error", []⟩ :=
  classify_no_match { revertReason := JSVal.vStr "VL_COLLATERAL_CANNOT_COVER_NEW_BORROW" }
    (by decide)

/-- Claim C4: for every input record (and any clock reading), the
`errorCategory` field of the record `buildTransactionContext` returns
equals `detectErrorCategory` applied to the same input record. -/
theorem normalize_errorCategory_eq_classify (now : String) (t : TxData) :
    (buildTransactionContext now t).errorCategory = detectErrorCategory t :=
  rfl

/-- Claim C7: `detectErrorCategory` reads only the error-text-bearing
fields: two records agreeing on `error`, `revertReason` and `errorMessage`
classify identically, whatever their other fields; in particular (taking
the two records equal) the classifier is deterministic. -/
theorem classify_reads_only_error_text (t1 t2 : TxData)
    (he : t1.error = t2.error) (hr : t1.revertReason = t2.revertReason)
    (hm : t1.errorMessage = t2.errorMessage) :
    detectErrorCategory t1 = detectErrorCategory t2 := by
  unfold detectErrorCategory
  have hs : searchStr t1 = searchStr t2 := by
    unfold searchStr
    rw [he, hr, hm]
  rw [hs]

/-- Witness for C7: records with the same error text but different hash,
recipient and nonce classify identically. -/
theorem classify_reads_only_error_text_witness :
    detectErrorCategory { error := JSVal.vStr "out of gas", hash := JSVal.vStr "0xaaa" } =
      detectErrorCategory
        { error := JSVal.vStr "out of gas", toAddr := JSVal.vStr "0xRouter",
          nonce := JSVal.vNum 7 } :=
  classify_reads_only_error_text
    { error := JSVal.vStr "out of gas", hash := JSVal.vStr "0xaaa" }
    { error := JSVal.vStr "out of gas", toAddr := JSVal.vStr "0xRouter",
      nonce := JSVal.vNum 7 }
    rfl rfl rfl

/-- Records with equal search strings classify identically. -/
theorem detect_congr {t1 t2 : TxData} (h : searchStr t1 = searchStr t2) :
    detectErrorCategory t1 = detectErrorCategory t2 := by
  unfold detectErrorCategory
  rw [h]

/-- Claim C3: for every object-shaped input record (empty object
included) and clock reading, `buildTransactionContext` succeeds and no
canonical field of its result is absent, undefined or null; on the empty
record it yields hash `"N/A"`, error `"No error message"`, an UNKNOWN
classification and an empty additional-context object. -/
theorem normalize_total_defined (now : String) (t : TxData) :
    (isDefined (buildTransactionContext now t).hash = true ∧
      isDefined (buildTransactionContext now t).status = true ∧
      isDefined (buildTransactionContext now t).gasUsed = true ∧
      isDefined (buildTransactionContext now t).gasLimit = true ∧
      isDefined (buildTransactionContext now t).gasPrice = true ∧
      isDefined (buildTransactionContext now t).fromAddr = true ∧
      isDefined (buildTransactionContext now t).toAddr = true ∧
      isDefined (buildTransactionContext now t).value = true ∧
      isDefined (buildTransactionContext now t).nonce = true ∧
      isDefined (buildTransactionContext now t).error = true ∧
      isDefined (buildTransactionContext now t).revertReason = true ∧
      isDefined (buildTransactionContext now t).contractAddress = true ∧
      isDefined (buildTransactionContext now t).contractName = true ∧
      isDefined (buildTransactionContext now t).functionName = true ∧
      isDefined (buildTransactionContext now t).inputData = true ∧
      isDefined (buildTransactionContext now t).network = true ∧
      isDefined (buildTransactionContext now t).timestamp = true ∧
      isDefined (buildTransactionContext now t).additionalContext = true) ∧
    ((buildTransactionContext now {}).hash = JSVal.vStr "N/A" ∧
      (buildTransactionContext now {}).error = JSVal.vStr "No error message" ∧
      (buildTransactionContext now {}).errorCategory.key = "UNKNOWN" ∧
      (buildTransactionContext now {}).additionalContext = JSVal.vObj []) := by
  have hkey : (buildTransactionContext now {}).errorCategory.key = "UNKNOWN" := rfl
  constructor
  · exact ⟨isDefined_jsOr _ rfl, isDefined_jsOr _ rfl, isDefined_jsOr _ rfl,
      isDefined_jsOr _ rfl, isDefined_jsOr _ rfl, isDefined_jsOr _ rfl,
      isDefined_jsOr _ rfl, isDefined_jsOr _ rfl, isDefined_jsOr _ rfl,
      isDefined_jsOr _ rfl, isDefined_jsOr _ rfl,
      isDefined_jsOr _ (isDefined_jsOr _ rfl), isDefined_jsOr _ rfl,
      isDefined_jsOr _ rfl, isDefined_jsOr _ rfl, isDefined_jsOr _ rfl,
      isDefined_jsOr _ rfl, isDefined_jsOr _ rfl⟩
  · exact ⟨rfl, rfl, hkey, rfl⟩

/-- Claim C8: the `contractAddress` of the normalized record is the
input's contract-address field when truthy, else the recipient-address
field when truthy, else `"N/A"`; and on
`{to: "0xRouter", error: "ERC20: transfer amount exceeds allowance"}` the
contract address falls back to `"0xRouter"` and the classification is
ALLOWANCE / "Allowance Error". -/
theorem normalize_contractAddress_fallback (now : String) (t : TxData) :
    ((buildTransactionContext now t).contractAddress =
      if truthy t.contractAddress then t.contractAddress
      else if truthy t.toAddr then t.toAddr else JSVal.vStr "N/A") ∧
    (buildTransactionContext now
        { toAddr := JSVal.vStr "0xRouter",
          error := JSVal.vStr "ERC20: transfer amount exceeds allowance" }).contractAddress =
      JSVal.vStr "0xRouter" ∧
    (detectErrorCategory
        { toAddr := JSVal.vStr "0xRouter",
          error := JSVal.vStr "ERC20: transfer amount exceeds allowance" }).key =
      "ALLOWANCE" ∧
    (detectErrorCategory
        { toAddr := JSVal.vStr "0xRouter",
          error := JSVal.vStr "ERC20: transfer amount exceeds allowance" }).category =
      "Allowance Error" :=
  ⟨rfl, rfl, by decide, by decide⟩

/-- Claim C9: the three text fields are joined with a space, so a
multi-word catalog substring can match across a field boundary: neither
`"out of"` nor `"gas"` alone contains any catalog substring, yet the
record with error `"out of"` and revert reason `"gas"` classifies as
OUT_OF_GAS rather than UNKNOWN. -/
theorem classify_cross_field_match :
    (∀ e ∈ ERROR_PATTERNS, entryMatches "out of" e = false) ∧
    (∀ e ∈ ERROR_PATTERNS, entryMatches "gas" e = false) ∧
    (detectErrorCategory
        { error := JSVal.vStr "out of", revertReason := JSVal.vStr "gas" }).key =
      "OUT_OF_GAS" := by
  decide

/-- Claim C10: defaults beyond the documented ones — when the status,
value or network field is absent or falsy, the normalized record has
status `"failed"`, value `"0"` and network `"Ethereum Mainnet"`. -/
theorem normalize_extra_defaults (now : String) (t : TxData) :
    (truthy t.status = false →
      (buildTransactionContext now t).status = JSVal.vStr "failed") ∧
    (truthy t.value = false →
      (buildTransactionContext now t).value = JSVal.vStr "0") ∧
    (truthy t.network = false →
      (buildTransactionContext now t).network = JSVal.vStr "Ethereum Mainnet") :=
  ⟨fun h => jsOr_of_falsy _ h, fun h => jsOr_of_falsy _ h, fun h => jsOr_of_falsy _ h⟩

/-- Witness for C10: the empty record gets all three extra defaults. -/
theorem normalize_extra_defaults_witness :
    (buildTransactionContext "2024-01-15T10:23:45Z" {}).status = JSVal.vStr "failed" ∧
    (buildTransactionContext "2024-01-15T10:23:45Z" {}).value = JSVal.vStr "0" ∧
    (buildTransactionContext "2024-01-15T10:23:45Z" {}).network = JSVal.vStr "Ethereum Mainnet" :=
  ⟨(normalize_extra_defaults "2024-01-15T10:23:45Z" {}).1 rfl,
    (normalize_extra_defaults "2024-01-15T10:23:45Z" {}).2.1 rfl,
    (normalize_extra_defaults "2024-01-15T10:23:45Z" {}).2.2 rfl⟩

/-- Counterexample to claim C5 as stated: a truthy non-string error value
is not coerced to the empty string. The array `["paused"]` is stringified
by the join and drives the classification to PAUSED, while the record
whose error field actually is the empty string classifies UNKNOWN. -/
theorem classify_nonstring_counterexample :
    detectErrorCategory { error := JSVal.vArr ["paused"] } =
      ⟨"PAUSED", "Contract Paused", ["paused", "contract is paused", "pausable: paused"]⟩ ∧
    detectErrorCategory { error := JSVal.vStr "" } =
      ⟨"UNKNOWN", "Unknown Error", []⟩ := by
  decide

/-- Claim C5, amended: `detectErrorCategory` is a total function of the
record (it never raises), and any falsy value — undefined, null, the
empty string, 0 or false — in the error, revert-reason or error-message
field is coerced to the empty string for search purposes; a truthy
non-string value is instead converted to its JavaScript string form by
the join and can contribute to the search string. -/
theorem classify_falsy_coerced (t : TxData) :
    (truthy t.error = false →
      detectErrorCategory t =
        detectErrorCategory { t with error := JSVal.vStr "" }) ∧
    (truthy t.revertReason = false →
      detectErrorCategory t =
        detectErrorCategory { t with revertReason := JSVal.vStr "" }) ∧
    (truthy t.errorMessage = false →
      detectErrorCategory t =
        detectErrorCategory { t with errorMessage := JSVal.vStr "" }) := by
  refine ⟨fun h => detect_congr ?_, fun h => detect_congr ?_, fun h => detect_congr ?_⟩ <;>
  · unfold searchStr
    rw [jsOr_of_falsy _ h]
    exact rfl

/-- Witness for C5: a record whose error field is the falsy number 0
classifies exactly as the record whose error field is the empty string. -/
theorem classify_falsy_coerced_witness :
    detectErrorCategory { error := JSVal.vNum 0 } =
      detectErrorCategory { error := JSVal.vStr "" } :=
  (classify_falsy_coerced { error := JSVal.vNum 0 }).1 rfl

/-- Counterexample to claim C6 as stated: re-normalizing changes a field
other than the timestamp. On the input `{errorMessage: "paused"}` the
first normalization classifies PAUSED, but normalizing its output
classifies UNKNOWN: the normalized object carries no errorMessage
property, and its error texts were replaced by placeholder strings. -/
theorem renormalize_counterexample :
    (buildTransactionContext "T0"
        { errorMessage := JSVal.vStr "paused" }).errorCategory.key = "PAUSED" ∧
    (buildTransactionContext "T1" (ctxToTxData (buildTransactionContext "T0"
        { errorMessage := JSVal.vStr "paused" }))).errorCategory.key = "UNKNOWN" := by
  decide

/-- Claim C6, amended: `detectErrorCategory` applied twice to the same
input yields equal results, and `buildTransactionContext` applied to its
own output agrees with the single application on every field except
`errorCategory`, which is recomputed from the defaulted error texts and
can change; the timestamp (present after the first pass whenever the
clock string is nonempty) is preserved rather than defaulted again. -/
theorem normalize_renormalize (now now2 : String) (t : TxData) (h : now ≠ "") :
    detectErrorCategory t = detectErrorCategory t ∧
    (buildTransactionContext now2 (ctxToTxData (buildTransactionContext now t))).hash =
      (buildTransactionContext now t).hash ∧
    (buildTransactionContext now2 (ctxToTxData (buildTransactionContext now t))).status =
      (buildTransactionContext now t).status ∧
    (buildTransactionContext now2 (ctxToTxData (buildTransactionContext now t))).gasUsed =
      (buildTransactionContext now t).gasUsed ∧
    (buildTransactionContext now2 (ctxToTxData (buildTransactionContext now t))).gasLimit =
      (buildTransactionContext now t).gasLimit ∧
    (buildTransactionContext now2 (ctxToTxData (buildTransactionContext now t))).gasPrice =
      (buildTransactionContext now t).gasPrice ∧
    (buildTransactionContext now2 (ctxToTxData (buildTransactionContext now t))).fromAddr =
      (buildTransactionContext now t).fromAddr ∧
    (buildTransactionContext now2 (ctxToTxData (buildTransactionContext now t))).toAddr =
      (buildTransactionContext now t).toAddr ∧
    (buildTransactionContext now2 (ctxToTxData (buildTransactionContext now t))).value =
      (buildTransactionContext now t).value ∧
    (buildTransactionContext now2 (ctxToTxData (buildTransactionContext now t))).nonce =
      (buildTransactionContext now t).nonce ∧
    (buildTransactionContext now2 (ctxToTxData (buildTransactionContext now t))).error =
      (buildTransactionContext now t).error ∧
    (buildTransactionContext now2 (ctxToTxData (buildTransactionContext now t))).revertReason =
      (buildTransactionContext now t).revertReason ∧
    (buildTransactionContext now2 (ctxToTxData (buildTransactionContext now t))).contractAddress =
      (buildTransactionContext now t).contractAddress ∧
    (buildTransactionContext now2 (ctxToTxData (buildTransactionContext now t))).contractName =
      (buildTransactionContext now t).contractName ∧
    (buildTransactionContext now2 (ctxToTxData (buildTransactionContext now t))).functionName =
      (buildTransactionContext now t).functionName ∧
    (buildTransactionContext now2 (ctxToTxData (buildTransactionContext now t))).inputData =
      (buildTransactionContext now t).inputData ∧
    (buildTransactionContext now2 (ctxToTxData (buildTransactionContext now t))).network =
      (buildTransactionContext now t).network ∧
    (buildTransactionContext now2 (ctxToTxData (buildTransactionContext now t))).timestamp =
      (buildTransactionContext now t).timestamp ∧
    (buildTransactionContext now2 (ctxToTxData (buildTransactionContext now t))).additionalContext =
      (buildTransactionContext now t).additionalContext := by
  refine ⟨rfl, jsOr_absorb _ _ rfl, jsOr_absorb _ _ rfl, jsOr_absorb _ _ rfl,
    jsOr_absorb _ _ rfl, jsOr_absorb _ _ rfl, jsOr_absorb _ _ rfl,
    jsOr_absorb _ _ rfl, jsOr_absorb _ _ rfl, jsOr_absorb _ _ rfl,
    jsOr_absorb _ _ rfl, jsOr_absorb _ _ rfl,
    jsOr_absorb _ _ (truthy_jsOr _ rfl), jsOr_absorb _ _ rfl,
    jsOr_absorb _ _ rfl, jsOr_absorb _ _ rfl, jsOr_absorb _ _ rfl,
    jsOr_absorb _ _ ?_, jsOr_absorb _ _ rfl⟩
  simp only [truthy]
  simpa using h

/-- Witness for C6: on the empty record with a nonempty clock string, the
hash of the re-normalized record equals the hash of the normalized one. -/
theorem normalize_renormalize_witness :
    (buildTransactionContext "T1" (ctxToTxData (buildTransactionContext "T0" {}))).hash =
      (buildTransactionContext "T0" ({} : TxData)).hash :=
  (normalize_renormalize "T0" "T1" {} (by decide)).2.1
